import Mathlib

set_option autoImplicit false

/-
Verification of the fetch-api client library (src/lib/api.js) against its
specification. The JavaScript source is shallowly embedded: JavaScript
primitive values become an inductive value domain, objects used as
string-keyed records become association lists in assignment order,
promises are modelled by the value they settle with, and synchronous
throws become error results. External collaborators (the url resolver,
the query-string codec, the transport) enter as function parameters.
-/

namespace FetchApi

/-- JavaScript primitive values, the embedding's value domain. The values
undefined and null are distinguished constructors because the source
distinguishes them: json === undefined, token === null, and property
access throws on both. -/
inductive JsValue where
  | vundefined
  | vnull
  | vbool (b : Bool)
  | vnum (n : Int)
  | vstr (s : String)
  deriving DecidableEq, Repr

/-- JavaScript string conversion as performed by a template literal, used
by the Authorization header built in auth. -/
def jsToString : JsValue → String
  | .vundefined => "undefined"
  | .vnull => "null"
  | .vbool true => "true"
  | .vbool false => "false"
  | .vnum n => toString n
  | .vstr s => s

/-- Errors thrown by the library: apiError carries the message of an
ApiError from the source; typeError models the TypeError raised by
JavaScript when a property of null or undefined is read. -/
inductive JsError where
  | apiError (msg : String)
  | typeError
  deriving DecidableEq, Repr

/-- A JavaScript object used as a string-keyed record, in assignment
order; a later entry for a key shadows an earlier one, matching object
literal and spread semantics. -/
abbrev Jmap (α : Type) := List (String × α)

/-- Key lookup in a Jmap: the value of the last entry carrying the key. -/
def jlookup {α : Type} : Jmap α → String → Option α
  | [], _ => none
  | p :: rest, k =>
    match jlookup rest k with
    | some v => some v
    | none => if p.1 = k then some p.2 else none

/-- Object spread of a then b: the entries of a followed by the entries
of b, so that entries of b shadow entries of a. -/
def jmerge {α : Type} (a b : Jmap α) : Jmap α := a ++ b

/-- First-defined choice on optional values, used to state shadowing. -/
def optOr {α : Type} : Option α → Option α → Option α
  | some v, _ => some v
  | none, b => b

/-- Decide whether pat is a leading segment of l. -/
def listIsPref : List Char → List Char → Bool
  | [], _ => true
  | _ :: _, [] => false
  | a :: as, b :: bs => a == b && listIsPref as bs

/-- Decide whether pat occurs contiguously anywhere in l. An unanchored
JavaScript regular expression over literal characters tests exactly
this. -/
def listHasSub (pat : List Char) : List Char → Bool
  | [] => listIsPref pat []
  | c :: rest => listIsPref pat (c :: rest) || listHasSub pat rest

/-- String form of listHasSub. -/
def strHasSub (s pat : String) : Bool := listHasSub pat.toList s.toList

/-- String form of listIsPref: s starts with pat. -/
def strStarts (s pat : String) : Bool := listIsPref pat.toList s.toList

/-- Embedding of transformerFromContentType (src/lib/api.js lines 58-72):
a non-string input gives raw; a match of the unanchored pattern json
gives json; a match of the unanchored pattern text/ gives text;
otherwise raw. -/
def transformerFromContentType (contentType : JsValue) : String :=
  match contentType with
  | .vstr s =>
    if strHasSub s "json" then "json"
    else if strHasSub s "text/" then "text"
    else "raw"
  | _ => "raw"

/-- A fetch options object. The fields headers and query are the two
sub-objects the source treats specially; none models an absent
(undefined) field. All remaining top-level fields (method, mode, body,
and so on) live in extra, with JavaScript values. -/
structure Options where
  headers : Option (Jmap String) := none
  query : Option (Jmap String) := none
  extra : Jmap JsValue := []
  deriving DecidableEq, Repr

/-- Embedding of mergeOptions (src/lib/api.js lines 113-117): headers and
query are each merged with the call-site side shadowing, an absent side
defaulting to the empty object; the other top-level fields are merged
with the call-site side shadowing; the result always carries explicit
headers and query fields. -/
def mergeOptions (self options : Options) : Options where
  headers := some (jmerge (self.headers.getD []) (options.headers.getD []))
  query := some (jmerge (self.query.getD []) (options.query.getD []))
  extra := jmerge self.extra options.extra

/-- A Client instance: the stored root url (field API_ROOT) and the
stored default options. The source constructor assigns exactly these two
fields; in particular no field named apiUrl is ever assigned. -/
structure Api where
  API_ROOT : String
  options : Options
  deriving DecidableEq, Repr

/-- Embedding of the constructor (src/lib/api.js lines 13-20). Passing
undefined selects the default parameter, the empty string; a non-string
root url is rejected with a synchronous ApiError. -/
def apiNew (apiUrl : JsValue) (options : Options) : Except JsError Api :=
  let apiUrl := if apiUrl = .vundefined then .vstr "" else apiUrl
  match apiUrl with
  | .vstr s => .ok { API_ROOT := s, options := options }
  | _ => .error (.apiError "Provide a valid api url.")

/-- The unanchored absolute-url test of buildFullUrl (src/lib/api.js line
29): true when the url contains http:// or www anywhere, not only at the
start. -/
def looksAbsolute (url : String) : Bool :=
  strHasSub url "http://" || strHasSub url "www"

/-- Embedding of buildFullUrl (src/lib/api.js lines 27-30). The external
url resolver (Url.resolve) is a function parameter. -/
def Api.buildFullUrl (self : Api) (resolve : String → String → String) (url : String) : String :=
  if looksAbsolute url then url else resolve self.API_ROOT url

/-- Result of invoking a body-decoding operation on a response: an
immediate value, or a thenable (promise) modelled by the value it
resolves with. The source discriminates the two by testing whether the
then member of the result is a function. -/
inductive DecodedBody where
  | immediate (v : JsValue)
  | pending (v : JsValue)
  deriving DecidableEq, Repr

/-- The body value a caller finally observes: a pending decode is awaited
first. -/
def DecodedBody.awaited : DecodedBody → JsValue
  | .immediate v => v
  | .pending v => v

/-- A transport response as the source reads it: the Content-Type header
value (a string, or null when absent), the ok flag, status and
statusText, and the table of body-decoding operations. ops name = none
models a response exposing no function under that name, and ops name =
some d models an operation which, invoked bound to the response, yields
d. -/
structure Response where
  contentType : JsValue
  ok : Bool
  status : Nat
  statusText : String
  ops : String → Option DecodedBody

/-- Embedding of transformer (src/lib/api.js lines 74-83): select the
operation name from the Content-Type header and look the operation up on
the response; a missing operation raises a synchronous ApiError. The
returned body stands for the result of invoking the bound operation. -/
def transformer (response : Response) : Except JsError DecodedBody :=
  let name := transformerFromContentType response.contentType
  match response.ops name with
  | none => .error (.apiError ("Response has no transformer with name " ++ name))
  | some d => .ok d

/-- The ok-status failure carried by a rejected transform promise:
message, response and decoded data, mirroring the fields set on the
ApiError in the source. -/
structure ApiFailure where
  message : String
  response : Response
  data : JsValue

/-- Eventual value of the promise returned by transform: fulfilled with
response and data, or rejected with an ApiFailure. -/
inductive Outcome where
  | fulfilled (response : Response) (data : JsValue)
  | rejected (e : ApiFailure)

/-- Observable behaviour of one call to transform: either a promise with
the given eventual outcome is returned, or an error is thrown
synchronously and no promise is delivered. -/
inductive TransformResult where
  | returned (o : Outcome)
  | thrown (e : JsError)

/-- True exactly when a promise was returned. -/
def TransformResult.isReturned : TransformResult → Bool
  | .returned _ => true
  | .thrown _ => false

/-- True for null and undefined, the two values whose property access
throws a TypeError in JavaScript. -/
def nullish : JsValue → Bool
  | .vnull => true
  | .vundefined => true
  | _ => false

/-- The message built for a non-ok response (src/lib/api.js line 91). -/
def okStatusMessage (r : Response) : String :=
  "Response has no ok-status (" ++ toString r.status ++ " - " ++ r.statusText ++ ")"

/-- Embedding of transform (src/lib/api.js lines 85-111). Reading the
then member of the decoded data classifies it as thenable or immediate
and throws a TypeError when the data is an immediate null or undefined;
a thenable decode is modelled by the value it resolves with. -/
def transform (response : Response) : TransformResult :=
  match transformer response with
  | .error e => .thrown e
  | .ok data =>
    if !response.ok then
      match data with
      | .pending v => .returned (.rejected ⟨okStatusMessage response, response, v⟩)
      | .immediate v =>
        if nullish v then .thrown .typeError
        else .returned (.rejected ⟨okStatusMessage response, response, v⟩)
    else
      match data with
      | .pending v => .returned (.fulfilled response v)
      | .immediate v =>
        if nullish v then .thrown .typeError
        else .returned (.fulfilled response v)

/-- External collaborators of the dispatcher: the url resolver and the
query-string codec, abstract at the module boundary. -/
structure Externals where
  resolve : String → String → String
  qstringify : Jmap String → String

/-- Embedding of the url and options computation of fetch
(src/lib/api.js lines 129-142), up to the transport invocation: the pair
of full url and merged options handed to the global fetch. The query
test mirrors JavaScript truthiness: any object, however empty, passes,
while an absent field does not. -/
def Api.fetchRequest (self : Api) (ext : Externals) (url : String) (options : Options) : String × Options :=
  let merged := mergeOptions self.options options
  let url2 :=
    match merged.query with
    | some q => url ++ "?" ++ ext.qstringify q
    | none => url
  (self.buildFullUrl ext.resolve url2, merged)

/-- The options object literal built inside auth (src/lib/api.js lines
42-47). -/
def authOptions (token : JsValue) : Options where
  headers := some [("Authorization", "Token " ++ jsToString token)]
  query := none
  extra := [("mode", JsValue.vstr "cors")]

/-- Embedding of auth (src/lib/api.js lines 37-50): a null token throws;
otherwise a new Api is constructed from this.apiUrl — a field that is
never assigned, hence undefined — and the merged options. -/
def Api.auth (self : Api) (token : JsValue) : Except JsError Api :=
  if token = .vnull then
    .error (.apiError "AuthToken is null. Authorized API calls cannot be send.")
  else
    apiNew .vundefined (mergeOptions self.options (authOptions token))

/-- Escape of one character inside a JSON string literal. -/
def jsonEscapeChar (c : Char) : List Char :=
  if c = '"' ∨ c = '\\' then ['\\', c] else [c]

/-- Model of the builtin JSON.stringify on the embedded value domain:
undefined has no JSON encoding (the builtin returns undefined there);
null, booleans and numbers give their literals; a string is quoted with
quote and backslash escaped. -/
def jsonStringify : JsValue → Option String
  | .vundefined => none
  | .vnull => some "null"
  | .vbool true => some "true"
  | .vbool false => some "false"
  | .vnum n => some (toString n)
  | .vstr s =>
    some ("\"" ++ String.mk (s.toList.foldr (fun c acc => jsonEscapeChar c ++ acc) []) ++ "\"")

/-- The body field value set by fetchWithJSON. -/
def jsonBody (json : JsValue) : JsValue :=
  match jsonStringify json with
  | some s => .vstr s
  | none => .vundefined

/-- The options literal built by fetchWithJSON (src/lib/api.js lines
149-156): the caller options spread first, then a headers object holding
exactly the two json headers replacing any caller headers, then the
body. -/
def jsonFetchOptions (options : Options) (json : JsValue) : Options where
  headers := some [("Accept", "application/json"), ("Content-Type", "application/json")]
  query := options.query
  extra := jmerge options.extra [("body", jsonBody json)]

/-- Embedding of fetchWithJSON (src/lib/api.js lines 144-157): an
undefined json throws synchronously; any other json is dispatched with
the json options literal. -/
def Api.fetchWithJSON (self : Api) (ext : Externals) (url : String) (json : JsValue) (options : Options) : Except JsError (String × Options) :=
  if json = .vundefined then .error (.apiError "No JSON object given")
  else .ok (self.fetchRequest ext url (jsonFetchOptions options json))

/-- Concrete externals used to evaluate the embedding at specific inputs:
a resolver concatenating base and path, and the query codec joining
key=value pairs with ampersands (empty mapping gives the empty
string, as the query-string package does). -/
def extConcat : Externals where
  resolve := fun b r => b ++ r
  qstringify := fun q => String.intercalate "&" (q.map (fun p => p.1 ++ "=" ++ p.2))

/-- A 404 response whose raw decode yields an immediate null. -/
def respNull404 : Response where
  contentType := JsValue.vnull
  ok := false
  status := 404
  statusText := "Not Found"
  ops := fun n => if n = "raw" then some (.immediate .vnull) else none

/-- An ok response whose raw decode yields an immediate undefined. -/
def respUndef200 : Response where
  contentType := JsValue.vnull
  ok := true
  status := 200
  statusText := "OK"
  ops := fun n => if n = "raw" then some (.immediate .vundefined) else none

/-- An ok json response whose decode is a thenable resolving with a
string payload. -/
def respOkPending : Response where
  contentType := JsValue.vstr "application/json"
  ok := true
  status := 200
  statusText := "OK"
  ops := fun n => if n = "json" then some (.pending (.vstr "payload")) else none

/-- A response exposing no decoding operation at all, with an absent
Content-Type. -/
def respNoOps : Response where
  contentType := JsValue.vnull
  ok := true
  status := 200
  statusText := "OK"
  ops := fun _ => none

/-- A text response exposing no decoding operation at all. -/
def respNoOpsText : Response where
  contentType := JsValue.vstr "text/html"
  ok := true
  status := 200
  statusText := "OK"
  ops := fun _ => none

/-- Characterization of the leading-segment test. -/
theorem listIsPref_iff (p l : List Char) : listIsPref p l = true ↔ ∃ t, l = p ++ t := by
  induction p generalizing l with
  | nil => simp [listIsPref]
  | cons a as ih =>
    cases l with
    | nil =>
      constructor
      · intro h; exact absurd h (by simp [listIsPref])
      · rintro ⟨t, ht⟩; exact absurd ht (by simp)
    | cons b bs =>
      simp only [listIsPref, Bool.and_eq_true, beq_iff_eq, ih, List.cons_append,
        List.cons.injEq]
      constructor
      · rintro ⟨rfl, t, rfl⟩; exact ⟨t, rfl, rfl⟩
      · rintro ⟨t, rfl, rfl⟩; exact ⟨rfl, t, rfl⟩

/-- Characterization of the contiguous-occurrence test: a decomposition
into a part before, the pattern, and a part after. -/
theorem listHasSub_iff (pat l : List Char) :
    listHasSub pat l = true ↔ ∃ a b, l = a ++ pat ++ b := by
  induction l with
  | nil =>
    simp only [listHasSub, listIsPref_iff]
    constructor
    · rintro ⟨t, ht⟩
      exact ⟨[], t, by simpa using ht⟩
    · rintro ⟨a, b, h⟩
      rcases List.append_eq_nil.mp h.symm with ⟨h1, h2⟩
      rcases List.append_eq_nil.mp h1 with ⟨h3, h4⟩
      exact ⟨[], by simp [h4]⟩
  | cons c rest ih =>
    simp only [listHasSub, Bool.or_eq_true, listIsPref_iff, ih]
    constructor
    · rintro (⟨t, ht⟩ | ⟨a, b, h⟩)
      · exact ⟨[], t, by simpa using ht⟩
      · exact ⟨c :: a, b, by simp [h]⟩
    · rintro ⟨a, b, h⟩
      cases a with
      | nil => exact Or.inl ⟨b, by simpa using h⟩
      | cons x xs =>
        right
        rw [List.cons_append, List.cons_append] at h
        refine ⟨xs, b, ?_⟩
        have := (List.cons.injEq c rest x _).mp h
        exact this.2

/-- String form of the occurrence characterization. -/
theorem strHasSub_iff (s pat : String) :
    strHasSub s pat = true ↔ ∃ a b, s.toList = a ++ pat.toList ++ b :=
  listHasSub_iff pat.toList s.toList

/-- Lookup over an appended Jmap: the right entries shadow the left. -/
theorem jlookup_append {α : Type} (a b : Jmap α) (k : String) :
    jlookup (a ++ b) k = optOr (jlookup b k) (jlookup a k) := by
  induction a with
  | nil =>
    simp only [List.nil_append]
    cases jlookup b k <;> simp [jlookup, optOr]
  | cons p rest ih =>
    show (match jlookup (rest ++ b) k with
      | some v => some v
      | none => if p.1 = k then some p.2 else none) = _
    rw [ih]
    cases hb : jlookup b k <;> cases hr : jlookup rest k <;>
      simp [jlookup, optOr, hb, hr]

/-- Claim C2 counterexample: the content type x-text/plain contains
neither json nor a leading text/, yet classification yields text rather
than raw, because the text/ pattern is matched anywhere in the string. -/
theorem claim_C2_counterexample :
    transformerFromContentType (.vstr "x-text/plain") = "text"
    ∧ strHasSub "x-text/plain" "json" = false
    ∧ strStarts "x-text/plain" "text/" = false
    ∧ ("text" : String) ≠ "raw" := by
  refine ⟨by decide, by decide, by decide, by decide⟩

/-- Claim C2 (amended): for a non-string input classification yields raw;
for a string containing json anywhere it yields json; otherwise, for a
string containing text/ anywhere — not only as a leading segment — it
yields text; otherwise raw. -/
theorem claim_C2_amended (ct : JsValue) :
    (∀ s, ct = .vstr s →
      ((transformerFromContentType ct = "json" ↔ ∃ a b, s.toList = a ++ "json".toList ++ b)
        ∧ (transformerFromContentType ct = "text" ↔
            (¬ ∃ a b, s.toList = a ++ "json".toList ++ b)
            ∧ ∃ a b, s.toList = a ++ "text/".toList ++ b)
        ∧ (transformerFromContentType ct = "raw" ↔
            (¬ ∃ a b, s.toList = a ++ "json".toList ++ b)
            ∧ ¬ ∃ a b, s.toList = a ++ "text/".toList ++ b)))
    ∧ ((∀ s, ct ≠ .vstr s) → transformerFromContentType ct = "raw") := by
  constructor
  · rintro s rfl
    by_cases hj : strHasSub s "json" = true
    · have h2 : transformerFromContentType (.vstr s) = "json" := by
        simp [transformerFromContentType, hj]
      rw [h2]
      refine ⟨⟨fun _ => (strHasSub_iff s "json").mp hj, fun _ => rfl⟩, ?_, ?_⟩
      · constructor
        · intro h; exact absurd h (by decide)
        · rintro ⟨hn, _⟩; exact absurd ((strHasSub_iff s "json").mp hj) hn
      · constructor
        · intro h; exact absurd h (by decide)
        · rintro ⟨hn, _⟩; exact absurd ((strHasSub_iff s "json").mp hj) hn
    · have hjn : strHasSub s "json" = false := by simpa using hj
      have hnj : ¬ ∃ a b, s.toList = a ++ "json".toList ++ b :=
        fun hx => hj ((strHasSub_iff s "json").mpr hx)
      by_cases ht : strHasSub s "text/" = true
      · have h2 : transformerFromContentType (.vstr s) = "text" := by
          simp [transformerFromContentType, hjn, ht]
        rw [h2]
        refine ⟨⟨fun h => absurd h (by decide), fun hx => absurd hx hnj⟩,
          ⟨fun _ => ⟨hnj, (strHasSub_iff s "text/").mp ht⟩, fun _ => rfl⟩,
          ⟨fun h => absurd h (by decide),
            fun hx => absurd ((strHasSub_iff s "text/").mp ht) hx.2⟩⟩
      · have htn : strHasSub s "text/" = false := by simpa using ht
        have hnt : ¬ ∃ a b, s.toList = a ++ "text/".toList ++ b :=
          fun hx => ht ((strHasSub_iff s "text/").mpr hx)
        have h2 : transformerFromContentType (.vstr s) = "raw" := by
          simp [transformerFromContentType, hjn, htn]
        rw [h2]
        exact ⟨⟨fun h => absurd h (by decide), fun hx => absurd hx hnj⟩,
          ⟨fun h => absurd h (by decide), fun hx => absurd hx.2 hnt⟩,
          ⟨fun _ => ⟨hnj, hnt⟩, fun _ => rfl⟩⟩
  · intro h
    cases ct with
    | vstr s => exact absurd rfl (h s)
    | vundefined => rfl
    | vnull => rfl
    | vbool b => rfl
    | vnum n => rfl

/-- Claim C2 witness: the amended characterization evaluated at the
content type application/json and at a null content type. -/
theorem claim_C2_witness :
    transformerFromContentType (.vstr "application/json") = "json"
    ∧ transformerFromContentType .vnull = "raw" := by
  constructor
  · exact ((claim_C2_amended (.vstr "application/json")).1 "application/json" rfl).1.mpr
      ⟨"application/".toList, [], by decide⟩
  · exact (claim_C2_amended .vnull).2 (fun s h => by cases h)

/-- Claim C4 counterexample: the url foo/www starts with neither http://
nor www, yet buildFullUrl passes it through unchanged instead of
resolving it against the root, because the heuristic regular expression
is unanchored. -/
theorem claim_C4_counterexample :
    Api.buildFullUrl ⟨"http://example.com", {}⟩ (fun b r => b ++ "/" ++ r) "foo/www" = "foo/www"
    ∧ strStarts "foo/www" "http://" = false
    ∧ strStarts "foo/www" "www" = false
    ∧ "foo/www" ≠ (fun (b r : String) => b ++ "/" ++ r) "http://example.com" "foo/www" := by
  refine ⟨by decide, by decide, by decide, by decide⟩

/-- Claim C4 (amended): a url is passed through unchanged exactly when it
contains http:// or the substring www anywhere; every other url is
resolved against the configured root. -/
theorem claim_C4_amended (resolve : String → String → String) (root : String)
    (opts : Options) (url : String) :
    (((∃ a b, url.toList = a ++ "http://".toList ++ b)
        ∨ ∃ a b, url.toList = a ++ "www".toList ++ b) →
      Api.buildFullUrl ⟨root, opts⟩ resolve url = url)
    ∧ ((¬ ((∃ a b, url.toList = a ++ "http://".toList ++ b)
        ∨ ∃ a b, url.toList = a ++ "www".toList ++ b)) →
      Api.buildFullUrl ⟨root, opts⟩ resolve url = resolve root url) := by
  have hiff : looksAbsolute url = true ↔
      ((∃ a b, url.toList = a ++ "http://".toList ++ b)
        ∨ ∃ a b, url.toList = a ++ "www".toList ++ b) := by
    simp [looksAbsolute, Bool.or_eq_true, strHasSub_iff]
  constructor
  · intro h
    simp [Api.buildFullUrl, hiff.mpr h]
  · intro h
    have hf : looksAbsolute url = false := by
      cases hl : looksAbsolute url
      · rfl
      · exact absurd (hiff.mp hl) h
    simp [Api.buildFullUrl, hf]

/-- Claim C4 witness: the amended statement applied to an absolute url
and to a relative path. -/
theorem claim_C4_witness :
    Api.buildFullUrl ⟨"http://example.com", {}⟩ (fun b r => b ++ r) "http://a.io" = "http://a.io"
    ∧ Api.buildFullUrl ⟨"http://example.com", {}⟩ (fun b r => b ++ r) "/users"
      = (fun (b r : String) => b ++ r) "http://example.com" "/users" := by
  constructor
  · exact (claim_C4_amended (fun b r => b ++ r) "http://example.com" {} "http://a.io").1
      (Or.inl ⟨[], "a.io".toList, by decide⟩)
  · refine (claim_C4_amended (fun b r => b ++ r) "http://example.com" {} "/users").2 ?_
    rintro (⟨a, b, h⟩ | ⟨a, b, h⟩)
    · have hx : strHasSub "/users" "http://" = true := (strHasSub_iff _ _).mpr ⟨a, b, h⟩
      exact absurd hx (by decide)
    · have hx : strHasSub "/users" "www" = true := (strHasSub_iff _ _).mpr ⟨a, b, h⟩
      exact absurd hx (by decide)

/-- Claim C1 counterexample: for a 404 response whose decode yields an
immediate null, transform throws a TypeError synchronously and returns
no promise, so no pending Outcome determined by ok is delivered. -/
theorem claim_C1_counterexample :
    transform respNull404 = .thrown .typeError
    ∧ (transform respNull404).isReturned = false :=
  ⟨rfl, rfl⟩

/-- Claim C1 (amended): for every response whose selected decode
operation is available and whose decoded body, when immediate, is not
null or undefined, transform returns a promise determined by ok: for an
ok response it fulfills with the response and the decoded body, awaited
first when the decode is pending; otherwise it rejects with an error
whose message is exactly the ok-status template with status and
statusText substituted, whose data is the awaited decoded body and whose
response is the response. -/
theorem claim_C1_amended (r : Response) (d : DecodedBody)
    (hop : transformer r = .ok d)
    (hnn : ∀ v, d = .immediate v → nullish v = false) :
    transform r = .returned
      (if r.ok then
        .fulfilled r d.awaited
      else
        .rejected ⟨"Response has no ok-status (" ++ toString r.status ++ " - "
          ++ r.statusText ++ ")", r, d.awaited⟩) := by
  unfold transform
  rw [hop]
  cases d with
  | pending v =>
    cases hr : r.ok <;> simp [hr, DecodedBody.awaited, okStatusMessage]
  | immediate v =>
    have hv := hnn v rfl
    cases hr : r.ok <;> simp [hr, hv, DecodedBody.awaited, okStatusMessage]

/-- Claim C1 witness: the amended statement applied to an ok response
with an asynchronous json decode. -/
theorem claim_C1_witness :
    transform respOkPending = .returned (.fulfilled respOkPending (.vstr "payload")) := by
  have h := claim_C1_amended respOkPending (.pending (.vstr "payload")) rfl
    (fun v hv => by cases hv)
  simpa [respOkPending, DecodedBody.awaited] using h

/-- Claim C3: evaluation at the failing input. A dispatch of the path
/sample with no query options still reaches the transport with a
trailing question mark, because the merged options always carry a query
object and in JavaScript any object is truthy; the merged query here is
the empty mapping, for which the claim requires the url to pass through
unchanged. -/
theorem claim_C3_eval :
    (Api.fetchRequest ⟨"http://example.com", {}⟩ extConcat "/sample" {}).1
      = "http://example.com/sample?"
    ∧ (mergeOptions ({} : Options) ({} : Options)).query = some []
    ∧ "http://example.com/sample?" ≠ extConcat.resolve "http://example.com" "/sample" := by
  refine ⟨by decide, rfl, by decide⟩

/-- Claim C5 counterexample: for a response exposing no decoding
operation under the selected name, transform throws the ApiError
synchronously and returns no promise, rather than delivering the
failure as a failed pending value. -/
theorem claim_C5_counterexample :
    transform respNoOps = .thrown (.apiError "Response has no transformer with name raw")
    ∧ (transform respNoOps).isReturned = false :=
  ⟨rfl, rfl⟩

/-- Claim C5 (amended): when a response exposes no operation under the
name chosen by content-type classification, transform raises the
DecodeUnavailable ApiError as a synchronous throw — it returns no
promise — and no fallback to another strategy occurs, whatever other
operations the response exposes. -/
theorem claim_C5_amended (r : Response)
    (h : r.ops (transformerFromContentType r.contentType) = none) :
    transform r = .thrown (.apiError ("Response has no transformer with name "
      ++ transformerFromContentType r.contentType))
    ∧ (transform r).isReturned = false := by
  have ht : transformer r = .error (.apiError ("Response has no transformer with name "
      ++ transformerFromContentType r.contentType)) := by
    simp [transformer, h]
  constructor
  · simp [transform, ht]
  · simp [transform, ht, TransformResult.isReturned]

/-- Claim C5 witness: the amended statement applied to a text response
with no decoding operations. -/
theorem claim_C5_witness :
    transform respNoOpsText = .thrown (.apiError ("Response has no transformer with name "
      ++ transformerFromContentType respNoOpsText.contentType))
    ∧ (transform respNoOpsText).isReturned = false :=
  claim_C5_amended respNoOpsText rfl

/-- Claim C6: merged headers and query are each the key-union of the two
sides with the override side winning on every colliding key, the merged
result always carries headers and query fields, and these default to the
empty mapping when neither side supplies one. -/
theorem claim_C6 (A B : Options) :
    ((mergeOptions A B).headers.isSome = true ∧ (mergeOptions A B).query.isSome = true)
    ∧ (∀ k, jlookup ((mergeOptions A B).headers.getD []) k
        = optOr (jlookup (B.headers.getD []) k) (jlookup (A.headers.getD []) k))
    ∧ (∀ k, jlookup ((mergeOptions A B).query.getD []) k
        = optOr (jlookup (B.query.getD []) k) (jlookup (A.query.getD []) k))
    ∧ (A.headers = none → B.headers = none → (mergeOptions A B).headers = some [])
    ∧ (A.query = none → B.query = none → (mergeOptions A B).query = some []) := by
  refine ⟨⟨rfl, rfl⟩, ?_, ?_, ?_, ?_⟩
  · intro k; simp [mergeOptions, jmerge, jlookup_append]
  · intro k; simp [mergeOptions, jmerge, jlookup_append]
  · intro hA hB; simp [mergeOptions, hA, hB, jmerge]
  · intro hA hB; simp [mergeOptions, hA, hB, jmerge]

/-- Claim C6 witness: the merge characterization applied to the header
collision from the test suite and to two empty configurations. -/
theorem claim_C6_witness :
    (jlookup ((mergeOptions
        { headers := some [("Content-Type", "json"), ("Foo", "Bar")] }
        { headers := some [("Content-Type", "text"), ("Token", "123")] }).headers.getD [])
        "Content-Type"
      = optOr (jlookup [("Content-Type", "text"), ("Token", "123")] "Content-Type")
          (jlookup [("Content-Type", "json"), ("Foo", "Bar")] "Content-Type"))
    ∧ (mergeOptions ({} : Options) ({} : Options)).query = some [] := by
  constructor
  · exact (claim_C6 { headers := some [("Content-Type", "json"), ("Foo", "Bar")] }
      { headers := some [("Content-Type", "text"), ("Token", "123")] }).2.1 "Content-Type"
  · exact (claim_C6 {} {}).2.2.2.2 rfl rfl

/-- Claim C7: auth with a null token throws the InvalidToken ApiError
synchronously; auth with any other token returns a new Client whose
default configuration is the merge of the original defaults with an
Authorization token header and cors mode, both present in the merged
configuration; the merge builds a fresh value, leaving the original
configuration untouched. -/
theorem claim_C7 (self : Api) (token : JsValue) :
    (token = .vnull →
      self.auth token = .error (.apiError "AuthToken is null. Authorized API calls cannot be send."))
    ∧ (token ≠ .vnull →
      self.auth token = .ok ⟨"", mergeOptions self.options (authOptions token)⟩
      ∧ jlookup ((mergeOptions self.options (authOptions token)).headers.getD []) "Authorization"
          = some ("Token " ++ jsToString token)
      ∧ jlookup (mergeOptions self.options (authOptions token)).extra "mode"
          = some (.vstr "cors")) := by
  constructor
  · intro h; simp [Api.auth, h]
  · intro h
    refine ⟨?_, ?_, ?_⟩
    · simp [Api.auth, h, apiNew]
    · simp [mergeOptions, authOptions, jmerge, jlookup_append, jlookup, optOr]
    · simp [mergeOptions, authOptions, jmerge, jlookup_append, jlookup, optOr]

/-- Claim C7 witness: auth applied to a null token and to the token abc
of the specification scenario. -/
theorem claim_C7_witness :
    (Api.auth ⟨"http://example.com", {}⟩ .vnull
      = .error (.apiError "AuthToken is null. Authorized API calls cannot be send."))
    ∧ jlookup ((mergeOptions ({} : Options) (authOptions (.vstr "abc"))).headers.getD [])
        "Authorization" = some ("Token " ++ jsToString (.vstr "abc")) := by
  constructor
  · exact (claim_C7 ⟨"http://example.com", {}⟩ .vnull).1 rfl
  · exact ((claim_C7 ⟨"http://example.com", {}⟩ (.vstr "abc")).2 (by decide)).2.1

/-- Claim C8: for any root and any non-null token, the Client returned
by auth carries the empty string as API_ROOT — the constructor receives
the never-assigned apiUrl field, undefined, so the default empty string
is taken — and a relative-path dispatch on the derived Client resolves
against the empty string rather than the original root. -/
theorem claim_C8 (root : String) (opts : Options) (token : JsValue) (h : token ≠ .vnull) :
    ∃ derived : Api,
      Api.auth ⟨root, opts⟩ token = .ok derived
      ∧ derived.API_ROOT = ""
      ∧ ∀ (resolve : String → String → String) (url : String),
          looksAbsolute url = false → derived.buildFullUrl resolve url = resolve "" url := by
  refine ⟨⟨"", mergeOptions opts (authOptions token)⟩, ?_, rfl, ?_⟩
  · simp [Api.auth, h, apiNew]
  · intro resolve url hu
    simp [Api.buildFullUrl, hu]

/-- Claim C8 witness: the derived Client for the scenario root and the
token abc, with relative paths resolved against the empty string. -/
theorem claim_C8_witness :
    ∃ derived : Api,
      Api.auth ⟨"http://example.com", {}⟩ (.vstr "abc") = .ok derived
      ∧ derived.API_ROOT = ""
      ∧ ∀ (resolve : String → String → String) (url : String),
          looksAbsolute url = false → derived.buildFullUrl resolve url = resolve "" url :=
  claim_C8 "http://example.com" {} (.vstr "abc") (by decide)

/-- Claim C9: fetchWithJSON throws the No JSON object ApiError
synchronously exactly for an undefined json; every other json — null
included — is dispatched, with the JSON text encoding of the json as the
body of the merged options, and null encodes to the literal null. -/
theorem claim_C9 (self : Api) (ext : Externals) (url : String) (options : Options) :
    (self.fetchWithJSON ext url .vundefined options = .error (.apiError "No JSON object given"))
    ∧ (∀ json : JsValue, json ≠ .vundefined →
        ∃ call : String × Options,
          self.fetchWithJSON ext url json options = .ok call
          ∧ ∃ s : String, jsonStringify json = some s
              ∧ jlookup call.2.extra "body" = some (.vstr s))
    ∧ jsonStringify .vnull = some "null" := by
  refine ⟨rfl, ?_, rfl⟩
  intro json hj
  obtain ⟨s, hs⟩ : ∃ s, jsonStringify json = some s := by
    cases json with
    | vundefined => exact absurd rfl hj
    | vnull => exact ⟨_, rfl⟩
    | vbool b => cases b <;> exact ⟨_, rfl⟩
    | vnum n => exact ⟨_, rfl⟩
    | vstr t => exact ⟨_, rfl⟩
  refine ⟨self.fetchRequest ext url (jsonFetchOptions options json), ?_, s, hs, ?_⟩
  · simp [Api.fetchWithJSON, hj]
  · simp [Api.fetchRequest, mergeOptions, jsonFetchOptions, jmerge, jlookup_append,
      jlookup, optOr, jsonBody, hs]

/-- Claim C9 witness: fetchWithJSON at an undefined json and at the null
json, with concrete externals. -/
theorem claim_C9_witness :
    (Api.fetchWithJSON ⟨"http://example.com", {}⟩ extConcat "/things" .vundefined {}
      = .error (.apiError "No JSON object given"))
    ∧ ∃ call : String × Options,
        Api.fetchWithJSON ⟨"http://example.com", {}⟩ extConcat "/things" .vnull {} = .ok call
        ∧ ∃ s : String, jsonStringify .vnull = some s
            ∧ jlookup call.2.extra "body" = some (.vstr s) :=
  ⟨(claim_C9 ⟨"http://example.com", {}⟩ extConcat "/things" {}).1,
   (claim_C9 ⟨"http://example.com", {}⟩ extConcat "/things" {}).2.1 .vnull (by decide)⟩

/-- Claim C10: when the selected decode operation yields an immediate
null or undefined, transform throws a TypeError synchronously — raised
while the then member of the value is read — and returns no promise, so
no Outcome is delivered; the uniform pending-Outcome protocol therefore
requires every immediate decoded value to be neither null nor
undefined. -/
theorem claim_C10 (r : Response) (v : JsValue)
    (hop : r.ops (transformerFromContentType r.contentType) = some (.immediate v))
    (hv : nullish v = true) :
    transform r = .thrown .typeError ∧ (transform r).isReturned = false := by
  have ht : transformer r = .ok (.immediate v) := by simp [transformer, hop]
  constructor
  · cases hr : r.ok <;> simp [transform, ht, hv, hr]
  · cases hr : r.ok <;> simp [transform, ht, hv, hr, TransformResult.isReturned]

/-- Claim C10 witness: the TypeError at an ok response whose raw decode
yields an immediate undefined. -/
theorem claim_C10_witness :
    transform respUndef200 = .thrown .typeError
    ∧ (transform respUndef200).isReturned = false :=
  claim_C10 respUndef200 .vundefined rfl rfl

end FetchApi
